import Mathlib

/-!
Verification of the TCFile frame-decoding core (TCFile/TCFile_class.py).

The embedding models the tile-stitching and scale-decoding engine:
frame location (`get_data_location`), tile compositing
(`TCFileRIAbstract.__getitem__` / `TCFileFL3D.__getitem__` tile loops),
and the version- and scalar-type-dependent conversion of raw integer
samples to physical units.

Dense arrays and tiles are modelled as functions from an index vector
(`List Nat`, axis order Z, Y, X) to raw sample values (`Nat`).  The
composited array's integer dtype (`u1` for ScalarType true, `u2` for
ScalarType false) is modelled by reducing every in-place accumulation
modulo `2 ^ w`, exactly as numpy unsigned arithmetic wraps.  Physical
values are modelled as rationals.
-/

namespace TCFile

/-- numpy dtype of a decoded array, as far as decoding observes it:
the raw on-disk dtype of a dataset, or `float32` after `astype(np.float32)`. -/
inductive DType where
  | uint8
  | uint16
  | float32
  | other (name : String)
deriving DecidableEq

/-- A tile (`TILE_<n>` group): its `SamplingStep` attribute, per-axis
`DataIndexOffsetPoint{Z,Y,X}` and `DataIndexLastPoint{Z,Y,X}` attributes,
and its raw sample buffer addressed by tile-local coordinates. -/
structure Tile where
  samplingStep : Int
  offset : List Nat
  lastIdx : List Nat
  sample : List Nat → Nat

/-- Per-frame attributes read on the tile-stitch path: `ScalarType`
(true = 8-bit samples) and `RIMin`. -/
structure FrameAttrs where
  scalarType : Bool
  minRI : ℚ

/-- What the container holds at a frame path: a direct dataset
(h5py.Dataset) with its dtype and raw values, or a group of tiles. -/
inductive FrameContent where
  | direct (dtype : DType) (vals : List Nat → Nat)
  | tileGroup (tl : List Tile)

/-- Membership of a global index vector in the inclusive destination
sub-region `[offset[i], lastIdx[i]]`, i.e. the numpy slice
`slice(start, end + 1)` per axis built at TCFile_class.py:216. -/
def inRegionB (offset lastIdx idx : List Nat) : Bool :=
  decide (offset.length = idx.length) &&
  decide (lastIdx.length = idx.length) &&
  ((offset.zip lastIdx).zip idx).all (fun p => decide (p.1.1 ≤ p.2) && decide (p.2 ≤ p.1.2))

/-- Tile-local coordinates of a global index vector (global minus offset). -/
def localIdx (offset idx : List Nat) : List Nat :=
  idx.zipWith (fun i o => i - o) offset

/-- One `data[mapping_range] += tile[valid_data_range]` step
(TCFile_class.py:218 / 308): inside the destination sub-region the tile's
sample is added with unsigned wraparound at width `w`; elsewhere the
array is unchanged. -/
def addTile (w : Nat) (arr : List Nat → Nat) (t : Tile) : List Nat → Nat :=
  fun idx =>
    if inRegionB t.offset t.lastIdx idx then
      (arr idx + t.sample (localIdx t.offset idx)) % 2 ^ w
    else arr idx

/-- The tile loop (TCFile_class.py:203-218 / 294-308): start from a
zero-filled dense array and fold over the sorted tile list, skipping any
tile whose `SamplingStep` is not 1. -/
def stitchTiles (w : Nat) (tl : List Tile) : List Nat → Nat :=
  tl.foldl (fun arr t => if t.samplingStep = 1 then addTile w arr t else arr) (fun _ => 0)

/-- The raw contribution of a single tile at a global index: its sample at
the tile-local coordinates when the tile is valid (`SamplingStep = 1`) and
the index lies in its destination sub-region, else 0. -/
def tileContrib (t : Tile) (idx : List Nat) : Nat :=
  if t.samplingStep = 1 ∧ inRegionB t.offset t.lastIdx idx then
    t.sample (localIdx t.offset idx)
  else 0

/-- Accumulation width chosen from `ScalarType`
(TCFile_class.py:199-202 / 293): dtype `u1` (8 bits) when true,
`u2` (16 bits) when false. -/
def sampleWidth (scalarType : Bool) : Nat :=
  if scalarType then 8 else 16

/-- Fallback scale conversion of the volumetric decoder
(TCFile_class.py:219-225): raw/1e3 + RIMin for 8-bit samples,
raw/1e4 for 16-bit samples. -/
def riScaleFallback (scalarType : Bool) (minRI : ℚ) (raw : ℚ) : ℚ :=
  if scalarType then raw / 1000 + minRI else raw / 10000

/-- Tile-path scale conversion of the fluorescence decoder
(TCFile_class.py:309-315): raw/1e3 for 8-bit samples, raw/1e4 for
16-bit samples; the RIMin addition is commented out in the source. -/
def flScaleTiles (scalarType : Bool) (raw : ℚ) : ℚ :=
  if scalarType then raw / 1000 else raw / 10000

/-- Result of one frame decode: the dtype of the returned array, the
physical value at each index, and whether `warnings.warn` ran. -/
structure DecodeOutcome where
  dtype : DType
  value : List Nat → ℚ
  warned : Bool

/-- `TCFileRIAbstract.__getitem__` (TCFile_class.py:169-227) after frame
location, on the numpy path.  For `format_version < "1.3"` the dataset is
returned as read, neither cast nor scaled.  Otherwise the direct read is
tried: cast to float32 and divided by 1e4.  When the direct read fails
(the path holds a tile group), a deprecation warning is emitted and the
frame is stitched from tiles at the `ScalarType` width, cast to float32,
and scaled by the fallback formula.  A legacy (< "1.3") container whose
path holds a tile group is outside the decoder's domain: the source would
return numpy's opaque object wrapping of the group; no claim touches it
and it is modelled as an `other` dtype with no values. -/
def riDecode (version : String) (c : FrameContent) (attrs : FrameAttrs) : DecodeOutcome :=
  if version < "1.3" then
    match c with
    | .direct d vals => ⟨d, fun idx => (vals idx : ℚ), false⟩
    | .tileGroup _ => ⟨.other "object", fun _ => 0, false⟩
  else
    match c with
    | .direct _ vals => ⟨.float32, fun idx => (vals idx : ℚ) / 10000, false⟩
    | .tileGroup tl =>
        ⟨.float32,
         fun idx =>
           riScaleFallback attrs.scalarType attrs.minRI
             ((stitchTiles (sampleWidth attrs.scalarType) tl idx : ℚ)),
         true⟩

/-- `TCFileFL3D.__getitem__` (TCFile_class.py:268-316) after frame
location, on the numpy path.  No version branch: a direct dataset is cast
to float32 and divided by 1e4; a tile group is stitched at the
`ScalarType` width, cast to float32 and scaled by /1e3 (8-bit) or /1e4
(16-bit).  The function contains no `warnings.warn` call. -/
def flDecode (c : FrameContent) (attrs : FrameAttrs) : DecodeOutcome :=
  match c with
  | .direct _ vals => ⟨.float32, fun idx => (vals idx : ℚ) / 10000, false⟩
  | .tileGroup tl =>
      ⟨.float32,
       fun idx =>
         flScaleTiles attrs.scalarType
           ((stitchTiles (sampleWidth attrs.scalarType) tl idx : ℚ)),
       false⟩

/-- An index argument to `__getitem__`: a Python `int`, or a value of any
other type (which `isinstance(key, int)` rejects). -/
inductive Key where
  | int (i : Int)
  | nonInt
deriving DecidableEq

/-- The two frame-location failures: `TypeError` for a non-integer index,
`IndexError` for an out-of-range index. -/
inductive LocErr where
  | typeError
  | indexError
deriving DecidableEq

/-- Python's `f"{key:06d}"` for the nonnegative normalized index. -/
def zeroPad6 (n : Int) : String :=
  let s := toString n
  if 6 ≤ s.length then s else String.mk (List.replicate (6 - s.length) '0') ++ s

/-- `TCFileAbstract.get_data_location` (TCFile_class.py:141-156):
`TypeError` unless the key is an integer, `IndexError` when
`key < -length or key >= length`, otherwise the path
`/Data/<imgtype>/<(key+length) % length:06d>`. -/
def get_data_location (imgtype : String) (length : Int) (k : Key) :
    Except LocErr String :=
  match k with
  | .nonInt => .error .typeError
  | .int key =>
      if key < -length ∨ length ≤ key then .error .indexError
      else .ok ("/Data/" ++ imgtype ++ "/" ++ zeroPad6 ((key + length) % length))

/-- `TCFileFL3D.get_data_location` (TCFile_class.py:258-266): same checks
and normalization, path `/Data/<imgtype>/CH<channel>/<index:06d>`. -/
def fl_get_data_location (imgtype : String) (channel : Int) (length : Int) (k : Key) :
    Except LocErr String :=
  match k with
  | .nonInt => .error .typeError
  | .int key =>
      if key < -length ∨ length ≤ key then .error .indexError
      else
        .ok ("/Data/" ++ imgtype ++ "/CH" ++ toString channel ++ "/" ++
          zeroPad6 ((key + length) % length))

/-- A volumetric / MIP container as the decoder observes it: image kind,
`FormatVersion`, `DataCount`, and the content and attributes found at
each path. -/
structure RIFile where
  imgtype : String
  formatVersion : String
  length : Int
  content : String → FrameContent
  attrs : String → FrameAttrs

/-- Full `TCFileRIAbstract.__getitem__`: frame location then decode; a
location error propagates unchanged. -/
def riGetItem (f : RIFile) (k : Key) : Except LocErr DecodeOutcome :=
  match get_data_location f.imgtype f.length k with
  | .error e => .error e
  | .ok p => .ok (riDecode f.formatVersion (f.content p) (f.attrs p))

/-- A fluorescence container: channel, `DataCount`, and the content and
attributes found at each path. -/
structure FLFile where
  channel : Int
  length : Int
  content : String → FrameContent
  attrs : String → FrameAttrs

/-- Full `TCFileFL3D.__getitem__`: frame location then decode; a location
error propagates unchanged. -/
def flGetItem (f : FLFile) (k : Key) : Except LocErr DecodeOutcome :=
  match fl_get_data_location "3DFL" f.channel f.length k with
  | .error e => .error e
  | .ok p => .ok (flDecode (f.content p) (f.attrs p))

/-! Concrete 4×4 two-dimensional example tiles used to exercise the
stitching engine: a disjoint pair (rows 0-1 constant 3, row 3 constant 5,
row 2 uncovered), an overlapping pair of constant 1 whose regions share
row 1, a tile with `SamplingStep = 2`, and a one-cell tile of value 200
used to exhibit 8-bit wraparound. -/

def exTileA : Tile := ⟨1, [0, 0], [1, 3], fun _ => 3⟩

def exTileB : Tile := ⟨1, [3, 0], [3, 3], fun _ => 5⟩

def exTileC : Tile := ⟨1, [0, 0], [1, 3], fun _ => 1⟩

def exTileD : Tile := ⟨1, [1, 0], [2, 3], fun _ => 1⟩

def exSkipTile : Tile := ⟨2, [0, 0], [3, 3], fun _ => 9⟩

def exWrapTile : Tile := ⟨1, [0], [0], fun _ => 200⟩

/-- A one-frame volumetric container used as a concrete witness input. -/
def exRIFile : RIFile :=
  ⟨"3D", "1.4", 1, fun _ => .direct .uint16 (fun _ => 0), fun _ => ⟨false, 0⟩⟩

/-- A three-frame volumetric container used as a concrete witness input. -/
def exRIFile3 : RIFile :=
  ⟨"3D", "1.4", 3, fun _ => .direct .uint16 (fun _ => 0), fun _ => ⟨false, 0⟩⟩

/-- A one-frame fluorescence container used as a concrete witness input. -/
def exFLFile : FLFile :=
  ⟨0, 1, fun _ => .direct .uint16 (fun _ => 0), fun _ => ⟨false, 0⟩⟩

/-! Helper lemmas. -/

lemma not_lt_14 : ¬ (("1.4" : String) < "1.3") := by
  rw [String.lt_iff_toList_lt]; decide

lemma lt_12 : ("1.2" : String) < "1.3" := by
  rw [String.lt_iff_toList_lt]; decide

/-- The fold of the tile loop, started from any array whose value at
`idx` is already reduced at width `w`, lands at the wrapped sum of the
starting value and the valid tiles' contributions. -/
lemma stitch_go (w : Nat) (idx : List Nat) :
    ∀ (tl : List Tile) (arr : List Nat → Nat), arr idx < 2 ^ w →
      tl.foldl (fun a t => if t.samplingStep = 1 then addTile w a t else a) arr idx
        = (arr idx + (tl.map (fun t => tileContrib t idx)).sum) % 2 ^ w := by
  intro tl
  induction tl with
  | nil =>
      intro arr h
      simp [Nat.mod_eq_of_lt h]
  | cons t rest ih =>
      intro arr h
      simp only [List.foldl_cons, List.map_cons, List.sum_cons]
      by_cases hs : t.samplingStep = 1
      · rw [if_pos hs]
        by_cases hr : inRegionB t.offset t.lastIdx idx = true
        · have harr : addTile w arr t idx
              = (arr idx + t.sample (localIdx t.offset idx)) % 2 ^ w := by
            rw [addTile, if_pos hr]
          have hlt : addTile w arr t idx < 2 ^ w := by
            rw [harr]; exact Nat.mod_lt _ (Nat.pow_pos (by norm_num))
          rw [ih _ hlt, harr, Nat.mod_add_mod, tileContrib, if_pos ⟨hs, hr⟩,
            Nat.add_assoc]
        · have harr : addTile w arr t idx = arr idx := by
            rw [addTile, if_neg hr]
          have hlt : addTile w arr t idx < 2 ^ w := by rw [harr]; exact h
          rw [ih _ hlt, harr, tileContrib, if_neg (fun hc => hr hc.2), Nat.zero_add]
      · rw [if_neg hs, ih _ h, tileContrib, if_neg (fun hc => hs hc.1), Nat.zero_add]

/-- The composited dense array equals, at every index, the sum of the
valid covering tiles' raw contributions reduced modulo `2 ^ w`. -/
lemma stitchTiles_eq_sum (w : Nat) (tl : List Tile) (idx : List Nat) :
    stitchTiles w tl idx = (tl.map (fun t => tileContrib t idx)).sum % 2 ^ w := by
  have h := stitch_go w idx tl (fun _ => 0) (Nat.pow_pos (by norm_num))
  simpa [stitchTiles] using h

/-- C1: for a container whose FormatVersion is not lexicographically
below "1.3" and a frame path holding a direct dataset, decoding returns
the raw integer array cast to float32 and divided by 1e4, independently
of the ScalarType flag, for both the volumetric and the fluorescence
decoder; in particular a raw sample of 10000 decodes to 1. -/
theorem claim_C1 (version : String) (d : DType) (vals : List Nat → Nat)
    (a a' : FrameAttrs) (h : ¬ version < "1.3") :
    (∀ idx, (riDecode version (.direct d vals) a).value idx = (vals idx : ℚ) / 10000)
    ∧ (riDecode version (.direct d vals) a).dtype = DType.float32
    ∧ riDecode version (.direct d vals) a = riDecode version (.direct d vals) a'
    ∧ (∀ idx, (flDecode (.direct d vals) a).value idx = (vals idx : ℚ) / 10000)
    ∧ flDecode (.direct d vals) a = flDecode (.direct d vals) a'
    ∧ (∀ idx, vals idx = 10000 →
        (riDecode version (.direct d vals) a).value idx = 1) := by
  rw [riDecode, if_neg h]
  refine ⟨fun idx => rfl, rfl, ?_, fun idx => rfl, rfl, ?_⟩
  · rw [riDecode, if_neg h]
  · intro idx hv
    show ((vals idx : ℚ) / 10000) = 1
    rw [hv]
    norm_num

/-- C1 witness: with FormatVersion "1.4" and a direct dataset of constant
raw value 10000, the decoded physical value is 1. -/
theorem claim_C1_witness :
    ¬ (("1.4" : String) < "1.3")
    ∧ (riDecode "1.4" (.direct .uint16 (fun _ => 10000)) ⟨true, 133/100⟩).value [0] = 1 := by
  refine ⟨not_lt_14, ?_⟩
  exact (claim_C1 "1.4" .uint16 (fun _ => 10000) ⟨true, 133/100⟩ ⟨false, 0⟩
    not_lt_14).2.2.2.2.2 [0] rfl

/-- C2: on the tile-stitched fallback path (version not below "1.3", the
frame path holds a tile group), the composited raw array is converted as
raw/1e3 + RIMin when ScalarType is true (8-bit width) and raw/1e4 when
ScalarType is false (16-bit width); the conversion maps raw 500 with
RIMin = 1.33 to 1.83 in the 8-bit case and raw 13300 to 1.33 in the
16-bit case. -/
theorem claim_C2 (version : String) (tl : List Tile) (a : FrameAttrs)
    (h : ¬ version < "1.3") :
    (a.scalarType = true → ∀ idx,
      (riDecode version (.tileGroup tl) a).value idx
        = (stitchTiles 8 tl idx : ℚ) / 1000 + a.minRI)
    ∧ (a.scalarType = false → ∀ idx,
      (riDecode version (.tileGroup tl) a).value idx
        = (stitchTiles 16 tl idx : ℚ) / 10000)
    ∧ riScaleFallback true (133/100) 500 = 183/100
    ∧ riScaleFallback false (133/100) 13300 = 133/100 := by
  rw [riDecode, if_neg h]
  refine ⟨?_, ?_, ?_, ?_⟩
  · intro hst idx
    show riScaleFallback a.scalarType a.minRI _ = _
    rw [hst, sampleWidth, riScaleFallback]
    norm_num
  · intro hst idx
    show riScaleFallback a.scalarType a.minRI _ = _
    rw [hst, sampleWidth, riScaleFallback]
    norm_num
  · rw [riScaleFallback]; norm_num
  · rw [riScaleFallback]; norm_num

/-- C2 witness: a 16-bit one-tile frame whose single raw sample is 13300
decodes to 1.33; the 8-bit conversion maps 500 with RIMin 1.33 to 1.83. -/
theorem claim_C2_witness :
    ¬ (("1.4" : String) < "1.3")
    ∧ riScaleFallback true (133/100) 500 = 183/100
    ∧ (riDecode "1.4" (.tileGroup [⟨1, [0], [0], fun _ => 13300⟩])
        ⟨false, 133/100⟩).value [0] = 133/100 := by
  refine ⟨not_lt_14, ?_, ?_⟩
  · exact (claim_C2 "1.4" [] ⟨true, 0⟩ not_lt_14).2.2.1
  · have h1 := (claim_C2 "1.4" [⟨1, [0], [0], fun _ => 13300⟩]
      ⟨false, 133/100⟩ not_lt_14).2.1 rfl [0]
    have h2 : stitchTiles 16 [⟨1, [0], [0], fun _ => 13300⟩] [0] = 13300 := by decide
    rw [h1, h2]
    norm_num

/-- C3: tile compositing is additive, not overwrite: for two valid tiles
the composited value at every index is the wrapped sum of the two tiles'
contributions, each contribution being the tile's sample at the local
coordinates when the index lies in the inclusive destination sub-region
`[offset i, lastIdx i]` and zero otherwise. -/
theorem claim_C3 (w : Nat) (t1 t2 : Tile) (h1 : t1.samplingStep = 1)
    (h2 : t2.samplingStep = 1) (idx : List Nat) :
    stitchTiles w [t1, t2] idx
      = (tileContrib t1 idx + tileContrib t2 idx) % 2 ^ w := by
  rw [stitchTiles_eq_sum]
  simp

/-- C3 witness: stitching the disjoint pair (rows 0-1 constant 3, row 3
constant 5, 4×4 frame) gives 3 and 5 at the tiles' cells and 0 on the
uncovered row 2; stitching the overlapping pair of constant 1 sharing
row 1 gives 2 on the overlapped row and 1 on the non-overlapped rows. -/
theorem claim_C3_witness :
    exTileA.samplingStep = 1 ∧ exTileB.samplingStep = 1
    ∧ exTileC.samplingStep = 1 ∧ exTileD.samplingStep = 1
    ∧ stitchTiles 8 [exTileA, exTileB] [0, 2] = 3
    ∧ stitchTiles 8 [exTileA, exTileB] [1, 0] = 3
    ∧ stitchTiles 8 [exTileA, exTileB] [3, 3] = 5
    ∧ stitchTiles 8 [exTileA, exTileB] [2, 1] = 0
    ∧ stitchTiles 8 [exTileC, exTileD] [0, 2] = 1
    ∧ stitchTiles 8 [exTileC, exTileD] [1, 2] = 2
    ∧ stitchTiles 8 [exTileC, exTileD] [2, 2] = 1
    ∧ stitchTiles 8 [exTileC, exTileD] [3, 2] = 0 := by
  refine ⟨rfl, rfl, rfl, rfl, ?_, ?_, ?_, ?_, ?_, ?_, ?_, ?_⟩ <;>
    rw [claim_C3 8 _ _ rfl rfl] <;> decide

/-- C5: a tile whose SamplingStep is not 1 is skipped wherever it occurs
in the tile list and contributes nothing to the composited array, and a
frame all of whose tiles are skipped composites to the all-zero raw
array; in the model the skip is a silent branch of a total function, so
it aborts nothing. -/
theorem claim_C5 (w : Nat) (l1 l2 : List Tile) (t : Tile)
    (h : t.samplingStep ≠ 1) :
    (∀ idx, stitchTiles w (l1 ++ t :: l2) idx = stitchTiles w (l1 ++ l2) idx)
    ∧ (∀ tl : List Tile, (∀ u ∈ tl, u.samplingStep ≠ 1) →
        ∀ idx, stitchTiles w tl idx = 0) := by
  constructor
  · intro idx
    rw [stitchTiles_eq_sum, stitchTiles_eq_sum]
    have hc : tileContrib t idx = 0 := by
      rw [tileContrib, if_neg]
      rintro ⟨hs, _⟩
      exact h hs
    simp [hc]
  · intro tl hall idx
    rw [stitchTiles_eq_sum]
    have hz : ((tl.map fun u => tileContrib u idx)).sum = 0 := by
      apply List.sum_eq_zero
      intro x hx
      rcases List.mem_map.mp hx with ⟨u, hu, rfl⟩
      rw [tileContrib, if_neg]
      rintro ⟨hs, _⟩
      exact hall u hu hs
    rw [hz]
    simp

/-- C5 witness: a SamplingStep-2 tile alone composites to zero
everywhere on its region, and inserting it next to a valid tile leaves
the composited array unchanged. -/
theorem claim_C5_witness :
    exSkipTile.samplingStep ≠ 1
    ∧ stitchTiles 8 [exSkipTile] [1, 1] = 0
    ∧ stitchTiles 8 [exTileA, exSkipTile] [1, 1]
        = stitchTiles 8 [exTileA] [1, 1] := by
  refine ⟨by decide, ?_, ?_⟩
  · exact (claim_C5 8 [] [] exSkipTile (by decide)).2 [exSkipTile]
      (by intro u hu; rw [List.mem_singleton] at hu; subst hu; decide) [1, 1]
  · exact (claim_C5 8 [exTileA] [] exSkipTile (by decide)).1 [1, 1]

/-- C4 counterexample: with FormatVersion "1.2" and a direct uint16
dataset, the decoder returns the array in its raw dtype, not as float:
the returned dtype is uint16, refuting the claim's "returned as float". -/
theorem claim_C4_counterexample :
    (("1.2" : String) < "1.3")
    ∧ (riDecode "1.2" (.direct .uint16 (fun _ => 7)) ⟨false, 0⟩).dtype
        ≠ DType.float32 := by
  refine ⟨lt_12, ?_⟩
  rw [riDecode, if_pos lt_12]
  decide

/-- C4 (amended): for FormatVersion lexicographically below "1.3" with a
direct dataset, the decoder returns the raw sample values unchanged — in
the dataset's own dtype, with no float cast and no scaling — so a raw
sample value v decodes to physical value v exactly, and no warning is
emitted. -/
theorem claim_C4 (version : String) (d : DType) (vals : List Nat → Nat)
    (a : FrameAttrs) (h : version < "1.3") :
    (∀ idx, (riDecode version (.direct d vals) a).value idx = (vals idx : ℚ))
    ∧ (riDecode version (.direct d vals) a).dtype = d
    ∧ (riDecode version (.direct d vals) a).warned = false := by
  rw [riDecode, if_pos h]
  exact ⟨fun idx => rfl, rfl, rfl⟩

/-- C4 witness: with FormatVersion "1.2", raw value 7 decodes to 7 and
the dtype stays uint16. -/
theorem claim_C4_witness :
    (("1.2" : String) < "1.3")
    ∧ (riDecode "1.2" (.direct .uint16 (fun _ => 7)) ⟨false, 0⟩).value [0] = 7
    ∧ (riDecode "1.2" (.direct .uint16 (fun _ => 7)) ⟨false, 0⟩).dtype
        = DType.uint16 := by
  have h := claim_C4 "1.2" .uint16 (fun _ => 7) ⟨false, 0⟩ lt_12
  refine ⟨lt_12, ?_, h.2.1⟩
  rw [h.1 [0]]
  norm_num

/-- C6 counterexample: the fluorescence decoder takes the tile-group
fallback on a concrete tile group and emits no warning, refuting the
claim that the deprecated-format warning is surfaced for every image
kind that supports the fallback. -/
theorem claim_C6_counterexample :
    ¬ ((flDecode (.tileGroup [exTileC]) ⟨true, 0⟩).warned = true) := by
  simp [flDecode]

/-- C6 (amended): for a container with FormatVersion not below "1.3",
the volumetric/MIP decoder emits the non-fatal deprecated-format warning
whenever the frame path holds a tile group, and decoding proceeds to the
stitched, scaled result; the fluorescence decoder also proceeds to a
stitched result on its tile path but never emits a warning. -/
theorem claim_C6 (version : String) (tl : List Tile) (a : FrameAttrs)
    (h : ¬ version < "1.3") :
    (riDecode version (.tileGroup tl) a).warned = true
    ∧ (∀ idx, (riDecode version (.tileGroup tl) a).value idx
        = riScaleFallback a.scalarType a.minRI
            ((stitchTiles (sampleWidth a.scalarType) tl idx : ℚ)))
    ∧ (∀ c b, (flDecode c b).warned = false) := by
  rw [riDecode, if_neg h]
  refine ⟨rfl, fun idx => rfl, ?_⟩
  intro c b
  cases c <;> rfl

/-- C6 witness: with FormatVersion "1.4" and a tile group at the frame
path, the volumetric decoder's warning flag is set. -/
theorem claim_C6_witness :
    ¬ (("1.4" : String) < "1.3")
    ∧ (riDecode "1.4" (.tileGroup [exTileC]) ⟨true, 0⟩).warned = true := by
  exact ⟨not_lt_14, (claim_C6 "1.4" [exTileC] ⟨true, 0⟩ not_lt_14).1⟩

/-- C7: on the fluorescence tile-group path the stitched raw array is
scaled by 1/1e3 at 8-bit width (ScalarType true) and by 1/1e4 at 16-bit
width (ScalarType false), with no RIMin baseline added in either case —
in contrast to the volumetric 8-bit fallback, which is exactly the
fluorescence 8-bit scaling plus RIMin. -/
theorem claim_C7 (tl : List Tile) (a : FrameAttrs) :
    (a.scalarType = true → ∀ idx,
      (flDecode (.tileGroup tl) a).value idx = (stitchTiles 8 tl idx : ℚ) / 1000)
    ∧ (a.scalarType = false → ∀ idx,
      (flDecode (.tileGroup tl) a).value idx = (stitchTiles 16 tl idx : ℚ) / 10000)
    ∧ (∀ raw minRI : ℚ,
        riScaleFallback true minRI raw = flScaleTiles true raw + minRI)
    ∧ (∀ raw : ℚ, flScaleTiles false raw = riScaleFallback false 0 raw) := by
  refine ⟨?_, ?_, ?_, ?_⟩
  · intro hst idx
    show flScaleTiles a.scalarType _ = _
    rw [hst, sampleWidth, flScaleTiles]
    norm_num
  · intro hst idx
    show flScaleTiles a.scalarType _ = _
    rw [hst, sampleWidth, flScaleTiles]
    norm_num
  · intro raw minRI
    rw [riScaleFallback, flScaleTiles]
    norm_num
  · intro raw
    rw [riScaleFallback, flScaleTiles]
    norm_num

/-- C7 witness: a fluorescence 8-bit one-tile frame with raw sample 100
decodes to 100/1000 = 1/10, with no baseline added. -/
theorem claim_C7_witness :
    (true = true)
    ∧ (flDecode (.tileGroup [⟨1, [0], [0], fun _ => 100⟩]) ⟨true, 0⟩).value [0]
        = 1/10 := by
  refine ⟨rfl, ?_⟩
  have h1 := (claim_C7 [⟨1, [0], [0], fun _ => 100⟩] ⟨true, 0⟩).1 rfl [0]
  have h2 : stitchTiles 8 [⟨1, [0], [0], fun _ => 100⟩] [0] = 100 := by decide
  rw [h1, h2]
  norm_num

/-! Frame-location helper lemmas. -/

lemma get_loc_int_out (imgtype : String) (L i : Int) (h : i < -L ∨ L ≤ i) :
    get_data_location imgtype L (.int i) = .error .indexError := by
  simp only [get_data_location]
  rw [if_pos h]

lemma get_loc_int_in (imgtype : String) (L i : Int) (h : ¬ (i < -L ∨ L ≤ i)) :
    get_data_location imgtype L (.int i)
      = .ok ("/Data/" ++ imgtype ++ "/" ++ zeroPad6 ((i + L) % L)) := by
  simp only [get_data_location]
  rw [if_neg h]

lemma fl_get_loc_int_out (imgtype : String) (c L i : Int) (h : i < -L ∨ L ≤ i) :
    fl_get_data_location imgtype c L (.int i) = .error .indexError := by
  simp only [fl_get_data_location]
  rw [if_pos h]

lemma fl_get_loc_int_in (imgtype : String) (c L i : Int) (h : ¬ (i < -L ∨ L ≤ i)) :
    fl_get_data_location imgtype c L (.int i)
      = .ok ("/Data/" ++ imgtype ++ "/CH" ++ toString c ++ "/" ++ zeroPad6 ((i + L) % L)) := by
  simp only [fl_get_data_location]
  rw [if_neg h]

lemma riGetItem_error (f : RIFile) (k : Key) (e : LocErr)
    (h : get_data_location f.imgtype f.length k = .error e) :
    riGetItem f k = .error e := by
  simp [riGetItem, h]

lemma riGetItem_ok (f : RIFile) (k : Key) (p : String)
    (h : get_data_location f.imgtype f.length k = .ok p) :
    riGetItem f k = .ok (riDecode f.formatVersion (f.content p) (f.attrs p)) := by
  simp [riGetItem, h]

lemma flGetItem_error (g : FLFile) (k : Key) (e : LocErr)
    (h : fl_get_data_location "3DFL" g.channel g.length k = .error e) :
    flGetItem g k = .error e := by
  simp [flGetItem, h]

lemma flGetItem_ok (g : FLFile) (k : Key) (p : String)
    (h : fl_get_data_location "3DFL" g.channel g.length k = .ok p) :
    flGetItem g k = .ok (flDecode (g.content p) (g.attrs p)) := by
  simp [flGetItem, h]

/-- C8: frame lookup fails with TypeError exactly when the index is not
an integer and with IndexError exactly when the integer index is below
-length or at least length; in particular indices length and -length-1
fail for frame count at least 1; the location error reaches the caller
unchanged, for the volumetric and the fluorescence accessor alike. -/
theorem claim_C8 (f : RIFile) (g : FLFile) (k : Key) :
    (riGetItem f k = .error .typeError ↔ k = .nonInt)
    ∧ (∀ i : Int, k = .int i →
        (riGetItem f k = .error .indexError ↔ (i < -f.length ∨ f.length ≤ i)))
    ∧ (∀ e, get_data_location f.imgtype f.length k = .error e →
        riGetItem f k = .error e)
    ∧ (1 ≤ f.length →
        riGetItem f (.int f.length) = .error .indexError
        ∧ riGetItem f (.int (-f.length - 1)) = .error .indexError)
    ∧ (flGetItem g k = .error .typeError ↔ k = .nonInt)
    ∧ (∀ i : Int, k = .int i →
        (flGetItem g k = .error .indexError ↔ (i < -g.length ∨ g.length ≤ i)))
    ∧ (∀ e, fl_get_data_location "3DFL" g.channel g.length k = .error e →
        flGetItem g k = .error e) := by
  have c4 : 1 ≤ f.length →
      riGetItem f (.int f.length) = .error .indexError
      ∧ riGetItem f (.int (-f.length - 1)) = .error .indexError := by
    intro hL
    constructor
    · exact riGetItem_error f _ _ (get_loc_int_out _ _ _ (by omega))
    · exact riGetItem_error f _ _ (get_loc_int_out _ _ _ (by omega))
  cases k with
  | nonInt =>
      refine ⟨?_, ?_, riGetItem_error f .nonInt, c4, ?_, ?_, flGetItem_error g .nonInt⟩
      · exact iff_of_true (riGetItem_error f .nonInt .typeError rfl) rfl
      · intro i hi
        simp at hi
      · exact iff_of_true (flGetItem_error g .nonInt .typeError rfl) rfl
      · intro i hi
        simp at hi
  | int i =>
      have hri : riGetItem f (.int i) = .error .indexError
          ↔ (i < -f.length ∨ f.length ≤ i) := by
        by_cases hb : i < -f.length ∨ f.length ≤ i
        · rw [riGetItem_error f (.int i) _ (get_loc_int_out _ _ _ hb)]
          exact iff_of_true rfl hb
        · rw [riGetItem_ok f (.int i) _ (get_loc_int_in _ _ _ hb)]
          exact iff_of_false (by simp) hb
      have hrit : riGetItem f (.int i) ≠ .error .typeError := by
        by_cases hb : i < -f.length ∨ f.length ≤ i
        · rw [riGetItem_error f (.int i) _ (get_loc_int_out _ _ _ hb)]
          simp
        · rw [riGetItem_ok f (.int i) _ (get_loc_int_in _ _ _ hb)]
          simp
      have hfl : flGetItem g (.int i) = .error .indexError
          ↔ (i < -g.length ∨ g.length ≤ i) := by
        by_cases hb : i < -g.length ∨ g.length ≤ i
        · rw [flGetItem_error g (.int i) _ (fl_get_loc_int_out _ _ _ _ hb)]
          exact iff_of_true rfl hb
        · rw [flGetItem_ok g (.int i) _ (fl_get_loc_int_in _ _ _ _ hb)]
          exact iff_of_false (by simp) hb
      have hflt : flGetItem g (.int i) ≠ .error .typeError := by
        by_cases hb : i < -g.length ∨ g.length ≤ i
        · rw [flGetItem_error g (.int i) _ (fl_get_loc_int_out _ _ _ _ hb)]
          simp
        · rw [flGetItem_ok g (.int i) _ (fl_get_loc_int_in _ _ _ _ hb)]
          simp
      refine ⟨iff_of_false hrit (by simp), ?_, riGetItem_error f (.int i), c4,
        iff_of_false hflt (by simp), ?_, flGetItem_error g (.int i)⟩
      · intro j hj
        injection hj with hj
        subst hj
        exact hri
      · intro j hj
        injection hj with hj
        subst hj
        exact hfl

/-- C8 witness: on a one-frame container, indices 1 and -2 fail with
IndexError and a non-integer key fails with TypeError, for both
accessors. -/
theorem claim_C8_witness :
    (1 : Int) ≤ 1
    ∧ riGetItem exRIFile (.int 1) = .error .indexError
    ∧ riGetItem exRIFile (.int (-2)) = .error .indexError
    ∧ riGetItem exRIFile .nonInt = .error .typeError
    ∧ flGetItem exFLFile (.int 1) = .error .indexError := by
  refine ⟨by norm_num, ?_, ?_, ?_, ?_⟩
  · exact ((claim_C8 exRIFile exFLFile (.int 1)).2.1 1 rfl).mpr (by decide)
  · exact ((claim_C8 exRIFile exFLFile (.int (-2))).2.1 (-2) rfl).mpr (by decide)
  · exact (claim_C8 exRIFile exFLFile .nonInt).1.mpr rfl
  · exact ((claim_C8 exRIFile exFLFile (.int 1)).2.2.2.2.2.1 1 rfl).mpr (by decide)

/-- C9: a negative in-range index is normalized as (index + length) mod
length, so for frame count at least 1 the path computed for index -1
equals the path computed for index length-1, and the decoded frames
agree. -/
theorem claim_C9 (f : RIFile) (h : 1 ≤ f.length) :
    get_data_location f.imgtype f.length (.int (-1))
      = get_data_location f.imgtype f.length (.int (f.length - 1))
    ∧ riGetItem f (.int (-1)) = riGetItem f (.int (f.length - 1)) := by
  have hmod1 : ((-1) + f.length) % f.length = f.length - 1 := by
    rw [show (-1) + f.length = f.length - 1 from by ring]
    exact Int.emod_eq_of_lt (by omega) (by omega)
  have hmod2 : ((f.length - 1) + f.length) % f.length = f.length - 1 := by
    rw [show (f.length - 1) + f.length = (f.length - 1) + f.length * 1 from by ring,
      Int.add_mul_emod_self_left]
    exact Int.emod_eq_of_lt (by omega) (by omega)
  have hloc : get_data_location f.imgtype f.length (.int (-1))
      = get_data_location f.imgtype f.length (.int (f.length - 1)) := by
    rw [get_loc_int_in _ _ _ (by omega), get_loc_int_in _ _ _ (by omega), hmod1, hmod2]
  exact ⟨hloc, by simp [riGetItem, hloc]⟩

/-- C9 witness: on a three-frame container, decoding index -1 equals
decoding index 2. -/
theorem claim_C9_witness :
    (1 : Int) ≤ 3
    ∧ riGetItem exRIFile3 (.int (-1)) = riGetItem exRIFile3 (.int 2) := by
  refine ⟨by norm_num, ?_⟩
  exact (claim_C9 exRIFile3 (by decide)).2

/-- C10: tile compositing accumulates at the raw integer width chosen by
ScalarType (8 bits when true, 16 bits when false), so the composited raw
value at every index is the sum of the valid covering tiles'
contributions reduced modulo 2^8 resp. 2^16, and the float conversion
and scaling are applied only to that wrapped sum, for both the
volumetric fallback and the fluorescence tile path. -/
theorem claim_C10 (version : String) (tl : List Tile) (a : FrameAttrs)
    (h : ¬ version < "1.3") :
    (a.scalarType = true → ∀ idx,
      stitchTiles (sampleWidth a.scalarType) tl idx
        = (tl.map fun t => tileContrib t idx).sum % 2 ^ 8)
    ∧ (a.scalarType = false → ∀ idx,
      stitchTiles (sampleWidth a.scalarType) tl idx
        = (tl.map fun t => tileContrib t idx).sum % 2 ^ 16)
    ∧ (∀ idx, (riDecode version (.tileGroup tl) a).value idx
        = riScaleFallback a.scalarType a.minRI
            ((((tl.map fun t => tileContrib t idx).sum % 2 ^ sampleWidth a.scalarType : ℕ)) : ℚ))
    ∧ (∀ idx, (flDecode (.tileGroup tl) a).value idx
        = flScaleTiles a.scalarType
            ((((tl.map fun t => tileContrib t idx).sum % 2 ^ sampleWidth a.scalarType : ℕ)) : ℚ)) := by
  refine ⟨?_, ?_, ?_, ?_⟩
  · intro hst idx
    rw [stitchTiles_eq_sum, hst, sampleWidth]
    norm_num
  · intro hst idx
    rw [stitchTiles_eq_sum, hst, sampleWidth]
    norm_num
  · intro idx
    rw [riDecode, if_neg h]
    show riScaleFallback a.scalarType a.minRI _ = _
    rw [stitchTiles_eq_sum]
  · intro idx
    show flScaleTiles a.scalarType _ = _
    rw [stitchTiles_eq_sum]

/-- C10 witness: two overlapping one-cell 8-bit tiles of raw value 200
accumulate to (200+200) mod 256 = 144, and the decoded physical value is
144/1000 = 18/125 — the wrapped sum, scaled. -/
theorem claim_C10_witness :
    ¬ (("1.4" : String) < "1.3")
    ∧ (riDecode "1.4" (.tileGroup [exWrapTile, exWrapTile]) ⟨true, 0⟩).value [0]
        = 18/125 := by
  refine ⟨not_lt_14, ?_⟩
  have h1 := (claim_C10 "1.4" [exWrapTile, exWrapTile] ⟨true, 0⟩ not_lt_14).2.2.1 [0]
  have h2 : (([exWrapTile, exWrapTile].map fun t => tileContrib t [0]).sum
      % 2 ^ sampleWidth true : ℕ) = 144 := by decide
  rw [h1, h2, riScaleFallback]
  norm_num

end TCFile
